import Mathlib

/-!
Verification of the Tightlock event-delivery reconciliation engine.

This file gives a shallow embedding of the reconciliation core of the
repository:

* `src/dags/destinations/ga4mp.py` — the GA4 Measurement Protocol
  destination: per-event validation (`_get_valid_and_invalid_events`,
  `_parse_validate_result`, `_send_validate_request`) and row-to-event
  mapping (`_parse_input_data`).
* `src/dags/utils.py` — `RunResult.__add__`, the Google Ads
  batch reconciliation `GoogleAdsUtils.get_partial_failures`, and
  `DrillMixin._parse_data`.

Python dictionaries are embedded as insertion-ordered association lists,
Python `int` as `Int`, HTTP/network effects as explicit arguments (a
transport outcome per request), and Python exceptions as `Except`.
Identifier names follow the source, except that names the development
cannot use verbatim are written in camel case.
-/

/-- The members of the `errors.ErrorNameIDMap` enumeration.

Modelled from the spec: the `errors` module itself is not under `src/`.
The first three members are exactly the ones referenced by
`src/dags/destinations/ga4mp.py`; the last two come from the spec's error
taxonomy (§7): `RetriableTransportError` (spec row "transport failure")
and `FieldValidationRejection` ("non-retriable, keyed by offending
field").  The spec names correspond to the code names as follows:
`RetriableServerError` ↔ `RETRIABLE_GA4_HOOK_ERROR_HTTP_ERROR`
(triggered on HTTP ≥ 500 and on unparseable 200 bodies),
`NonRetriableSendFailure` ↔ `NON_RETRIABLE_ERROR_EVENT_NOT_SENT`,
`UnclassifiedInvalidValue` ↔ `GA4_HOOK_ERROR_INVALID_VALUES`. -/
inductive ErrorNameIDMap where
  | RETRIABLE_GA4_HOOK_ERROR_HTTP_ERROR
  | NON_RETRIABLE_ERROR_EVENT_NOT_SENT
  | GA4_HOOK_ERROR_INVALID_VALUES
  | RetriableTransportError
  | FieldValidationRejection (field_name : String)
  deriving DecidableEq, Repr

/-- Retriability of an error kind.  Modelled from the spec's taxonomy
table (§7): transport and server errors are retriable, everything else
is not. -/
def ErrorNameIDMap.retriable : ErrorNameIDMap → Bool
  | .RETRIABLE_GA4_HOOK_ERROR_HTTP_ERROR => true
  | .RetriableTransportError => true
  | _ => false

/-- Python exceptions observable in the embedded fragment:
`errors.DataOutConnectorValueError` (carrying its `error_num`), and the
builtin `KeyError` / `IndexError` raised by subscripting. -/
inductive PyErr where
  | DataOutConnectorValueError (error_num : ErrorNameIDMap)
  | KeyError
  | IndexError
  deriving DecidableEq, Repr

/-- An event: a Python dict from field name to (string) value, embedded
as an insertion-ordered association list. -/
abbrev Event := List (String × String)

/-- `event["k"]`: dict subscripting, `KeyError` when the key is absent. -/
def Event.getItem (e : Event) (k : String) : Except PyErr String :=
  match e.find? (fun kv => kv.1 == k) with
  | some kv => .ok kv.2
  | none => .error .KeyError

/-- One entry of the `"validationMessages"` list of the GA4 debug API
response body.  The source reads `message["fieldPath"]` and
`message["description"]`; `none` embeds an absent key. -/
structure ValidationMessage where
  fieldPath : Option String
  description : Option String
  deriving DecidableEq, Repr

/-- The decoded JSON body of a GA4 debug API response.  The source reads
`validation_result["validationMessages"]`; `none` embeds an absent key. -/
structure ValidationBody where
  validationMessages : Option (List ValidationMessage)
  deriving DecidableEq, Repr

/-- A `requests.Response` as observed by `_parse_validate_result`:
its status code and the result of `response.json()` (`none` when the
body is not parseable JSON, in which case `.json()` raises
`json.JSONDecodeError`). -/
structure GA4Response where
  status_code : Int
  json : Option ValidationBody
  deriving DecidableEq, Repr

/-- The outcome of one `requests.post` call to the validation endpoint:
either a `requests.ConnectionError` or a received response. -/
inductive TransportResult where
  | ConnectionError
  | response (r : GA4Response)
  deriving DecidableEq, Repr

/-- The `Destination.__init__` configuration fields that the embedded
methods read. -/
structure Destination where
  payload_type : String
  non_personalized_ads : Bool
  user_properties : Option (List (String × List (String × String)))
  deriving DecidableEq, Repr

/-- The single entry of the `"events"` list of a GA4 payload
(`name` plus the two `params` fields). -/
structure GA4EventItem where
  name : String
  engagement_time_msec : String
  session_id : String
  deriving DecidableEq, Repr

/-- The GA4 payload built from one event by
`_get_valid_and_invalid_events` (ga4mp.py lines 72–87). -/
structure GA4Payload where
  app_instance_id : Option String
  client_id : Option String
  user_id : String
  non_personalized_ads : Bool
  user_properties : Option (List (String × List (String × String)))
  events : List GA4EventItem
  deriving DecidableEq, Repr

/-- Payload construction, ga4mp.py lines 72–87.  Field reads happen in
source order; each read of a missing key raises `KeyError`.  The
`PayloadTypes.FIREBASE.value` / `PayloadTypes.GTAG.value` constants are
the strings `"firebase"` / `"gtag"` (the `PayloadTypes` enum is not
under `src/`; its values are fixed by the pydantic literals `'firebase'`
and `'gtag'` in ga4mp.py). -/
def buildPayload (dst : Destination) (event : Event) : Except PyErr GA4Payload := do
  let app_instance_id ←
    if dst.payload_type == "firebase" then do
      pure (some (← event.getItem "app_instance_id"))
    else pure none
  let client_id ←
    if dst.payload_type == "gtag" then do
      pure (some (← event.getItem "client_id"))
    else pure none
  let user_id ← event.getItem "user_id"
  let event_name ← event.getItem "event_name"
  let engagement_time_msec ← event.getItem "engagement_time_msec"
  let session_id ← event.getItem "session_id"
  pure
    { app_instance_id := app_instance_id
      client_id := client_id
      user_id := user_id
      non_personalized_ads := dst.non_personalized_ads
      user_properties := dst.user_properties
      events := [⟨event_name, engagement_time_msec, session_id⟩] }

/-- The validating payload sent by `_send_validate_request`: the event
payload plus the forced `validationBehavior` flag. -/
structure ValidatingPayload where
  payload : GA4Payload
  validationBehavior : String
  deriving DecidableEq, Repr

/-- `_send_validate_request`, ga4mp.py lines 163–187.  The network is an
explicit argument: on `requests.ConnectionError` the source raises
`DataOutConnectorValueError` with
`ErrorNameIDMap.RETRIABLE_GA4_HOOK_ERROR_HTTP_ERROR`; otherwise the
response is returned unchanged. -/
def sendValidateRequest (payload : GA4Payload) (t : TransportResult) :
    Except PyErr GA4Response :=
  let _validating_payload : ValidatingPayload :=
    ⟨payload, "ENFORCE_RECOMMENDATIONS"⟩
  match t with
  | .ConnectionError =>
      .error (.DataOutConnectorValueError .RETRIABLE_GA4_HOOK_ERROR_HTTP_ERROR)
  | .response r => .ok r

/-- `hay.startsWith needle` on character lists. -/
def charsStartWith : List Char → List Char → Bool
  | _, [] => true
  | [], _ :: _ => false
  | h :: hs, n :: ns => h == n && charsStartWith hs ns

/-- Substring search on character lists. -/
def charsHaveSub : List Char → List Char → Bool
  | [], needle => charsStartWith [] needle
  | hay@(_ :: hs), needle => charsStartWith hay needle || charsHaveSub hs needle

/-- Python's `needle in hay` on strings: substring containment. -/
def strIn (needle hay : String) : Bool := charsHaveSub hay.toList needle.toList

/-- The module-level `_ERROR_TYPES` lookup table of ga4mp.py.

Modelled from the spec: the constant's definition is not under `src/`
(only its use at ga4mp.py lines 150–153 is).  Per the spec (§4.2, §7) it
is a fixed table from known field names to specific error kinds
("invalid timestamp, invalid identifier, invalid engagement time"),
each a non-retriable field-validation rejection keyed by the offending
field. -/
def _ERROR_TYPES : List (String × ErrorNameIDMap) :=
  [("timestamp_micros", .FieldValidationRejection "timestamp_micros"),
   ("app_instance_id", .FieldValidationRejection "app_instance_id"),
   ("client_id", .FieldValidationRejection "client_id"),
   ("engagement_time_msec", .FieldValidationRejection "engagement_time_msec")]

/-- The `for property_name in _ERROR_TYPES` loop of
`_parse_validate_result` (ga4mp.py lines 150–153): return the kind of
the first table entry whose name equals the field path or occurs as a
substring of the description. -/
def findErrorType (field_path description : String) :
    List (String × ErrorNameIDMap) → Option ErrorNameIDMap
  | [] => none
  | (property_name, k) :: rest =>
    if field_path == property_name || strIn property_name description then some k
    else findErrorType field_path description rest

/-- `_parse_validate_result`, ga4mp.py lines 98–161.  Classification of
one debug-API response; the `event` argument is only printed by the
source and does not influence the result.  Raised
`DataOutConnectorValueError`s are embedded as `.error`; note that the
unparseable-body branch of the source passes the `.value` of the same
`RETRIABLE_GA4_HOOK_ERROR_HTTP_ERROR` member (same error kind).
Subscripting a body without `"validationMessages"`, or a message without
`"fieldPath"`/`"description"`, raises `KeyError`. -/
def parseValidateResult (event : Event) (response : GA4Response) :
    Except PyErr Unit :=
  if response.status_code ≥ 500 then
    .error (.DataOutConnectorValueError .RETRIABLE_GA4_HOOK_ERROR_HTTP_ERROR)
  else if response.status_code ≠ 200 then
    .error (.DataOutConnectorValueError .NON_RETRIABLE_ERROR_EVENT_NOT_SENT)
  else
    match response.json with
    | none =>
        .error (.DataOutConnectorValueError .RETRIABLE_GA4_HOOK_ERROR_HTTP_ERROR)
    | some validation_result =>
      match validation_result.validationMessages with
      | none => .error .KeyError
      | some [] => .ok ()
      | some (message :: _) =>
        match message.fieldPath with
        | none => .error .KeyError
        | some field_path =>
          match message.description with
          | none => .error .KeyError
          | some description =>
            match findErrorType field_path description _ERROR_TYPES with
            | some k => .error (.DataOutConnectorValueError k)
            | none =>
                .error (.DataOutConnectorValueError .GA4_HOOK_ERROR_INVALID_VALUES)

/-- The body of the `try` block of `_get_valid_and_invalid_events`
(ga4mp.py lines 89–91): send the validation request, then parse the
result. -/
def sendAndParse (payload : GA4Payload) (event : Event) (t : TransportResult) :
    Except PyErr Unit :=
  match sendValidateRequest payload t with
  | .error e => .error e
  | .ok r => parseValidateResult event r

/-- The `for i, event in enumerate(events)` loop of
`_get_valid_and_invalid_events` (ga4mp.py lines 69–96), starting at
index `i`.  `net j` is the transport outcome of the validation request
for the event at index `j`.  Payload construction happens outside the
`try` block, so its `KeyError` propagates; the `except` clause catches
exactly `DataOutConnectorValueError`, so a `KeyError` raised while
parsing also propagates and aborts the whole loop. -/
def getValidAndInvalidEventsGo (dst : Destination) (net : Nat → TransportResult) :
    Nat → List Event →
    Except PyErr (List (Nat × Event) × List (Nat × ErrorNameIDMap))
  | _, [] => .ok ([], [])
  | i, event :: rest =>
    match buildPayload dst event with
    | .error e => .error e
    | .ok payload =>
      match sendAndParse payload event (net i) with
      | .ok _ =>
        match getValidAndInvalidEventsGo dst net (i + 1) rest with
        | .error e => .error e
        | .ok (v, inv) => .ok ((i, event) :: v, inv)
      | .error (.DataOutConnectorValueError k) =>
        match getValidAndInvalidEventsGo dst net (i + 1) rest with
        | .error e => .error e
        | .ok (v, inv) => .ok (v, (i, k) :: inv)
      | .error e => .error e

/-- `_get_valid_and_invalid_events`, ga4mp.py lines 46–96. -/
def getValidAndInvalidEvents (dst : Destination) (events : List Event)
    (net : Nat → TransportResult) :
    Except PyErr (List (Nat × Event) × List (Nat × ErrorNameIDMap)) :=
  getValidAndInvalidEventsGo dst net 0 events

/-! ## Row-to-event field mapping

`DrillMixin._parse_data` (utils.py lines 318–331) and
`Destination._parse_input_data` (ga4mp.py lines 189–200). -/

/-- A Python dict from field name to value, as an insertion-ordered
association list. -/
abbrev Dict := List (String × String)

/-- `d[k] = v` on a Python dict: overwrite in place when the key exists,
append otherwise. -/
def dictSet : Dict → String → String → Dict
  | [], k, v => [(k, v)]
  | (k', v') :: rest, k, v =>
    if k' == k then (k, v) :: rest else (k', v') :: dictSet rest k v

/-- `row[i]` on a tuple: `IndexError` when out of range. -/
def rowGet (row : List String) (i : Nat) : Except PyErr String :=
  match row[i]? with
  | some v => .ok v
  | none => .error .IndexError

/-- The `for i, field in enumerate(fields)` inner loop shared by
`_parse_data` and `_parse_input_data`: build `event_dict` by assigning
`event_dict[field] = event[i]`, starting at index `i`. -/
def buildEventDictGo (row : List String) :
    Nat → Dict → List String → Except PyErr Dict
  | _, acc, [] => .ok acc
  | i, acc, f :: fs =>
    match rowGet row i with
    | .error e => .error e
    | .ok v => buildEventDictGo row (i + 1) (dictSet acc f v) fs

/-- The full inner loop, from index 0 and an empty dict. -/
def buildEventDict (fields : List String) (row : List String) :
    Except PyErr Dict :=
  buildEventDictGo row 0 [] fields

/-- Python `any(event_dict.values())`: some value of the dict is truthy
(for the string values of a row tuple: non-empty). -/
def dictAny (d : Dict) : Bool := d.any (fun kv => kv.2 != "")

/-- `DrillMixin._parse_data`, utils.py lines 318–331: map each row to an
ordered dict and keep it only if some value is truthy ("ignore empty
rows"). -/
def parseData (fields : List String) : List (List String) → Except PyErr (List Dict)
  | [] => .ok []
  | row :: rest =>
    match buildEventDict fields row with
    | .error e => .error e
    | .ok event_dict =>
      match parseData fields rest with
      | .error e => .error e
      | .ok events =>
        if dictAny event_dict then .ok (event_dict :: events) else .ok events

/-- `Destination._parse_input_data`, ga4mp.py lines 189–200: map each
row to an ordered dict; every row is appended, none is dropped. -/
def parseInputData (fields : List String) : List (List String) → Except PyErr (List Dict)
  | [] => .ok []
  | row :: rest =>
    match buildEventDict fields row with
    | .error e => .error e
    | .ok event_dict =>
      match parseInputData fields rest with
      | .error e => .error e
      | .ok events => .ok (event_dict :: events)

/-- The field list returned by `Destination.fields` in ga4mp.py. -/
def GA4_FIELDS : List String :=
  ["user_id", "event_name", "engagement_time_msec", "session_id"]

/-- The mapping step, written from the spec's words (§4.1): "produce a
sequence of ordered mappings, one per row, assigning `fields[i]` to
`row[i]` for i in [0,F)".  Used to compare the code's fused recursions
against the spec's description. -/
def mapRowSpec (fields row : List String) : Dict :=
  (fields.zip row).foldl (fun d fv => dictSet d fv.1 fv.2) []

/-! ## RunResult merging (utils.py lines 70–84) -/

/-- The `RunResult` dataclass of utils.py. -/
structure RunResult where
  successful_hits : Int := 0
  failed_hits : Int := 0
  error_messages : List String := []
  dry_run : Bool := false
  deriving DecidableEq, Repr

/-- `RunResult.__add__`, utils.py lines 79–84. -/
def RunResult.add (a b : RunResult) : RunResult :=
  { successful_hits := a.successful_hits + b.successful_hits
    failed_hits := a.failed_hits + b.failed_hits
    error_messages := a.error_messages ++ b.error_messages
    dry_run := a.dry_run || b.dry_run }

/-! ## Google Ads batch reconciliation (utils.py lines 179–220) -/

/-- One element of a `GoogleAdsFailure.errors[].location.field_path_elements`
list; only its `index` is read by the source. -/
structure FieldPathElement where
  index : Int
  deriving DecidableEq, Repr

/-- The `location` of one Google Ads error. -/
structure ErrorLocation where
  field_path_elements : List FieldPathElement
  deriving DecidableEq, Repr

/-- One error inside a decoded `GoogleAdsFailure`.  `error_code` is a
proto message that the source only interpolates into a string; it is
embedded by its textual form. -/
structure GoogleAdsError where
  error_code : String
  message : String
  location : ErrorLocation
  deriving DecidableEq, Repr

/-- A decoded `GoogleAdsFailure`. -/
structure GoogleAdsFailure where
  errors : List GoogleAdsError
  deriving DecidableEq, Repr

/-- One entry of the `details` list of the failure status.
`GoogleAdsFailure.deserialize(error_detail.value)` is an external
client-library call (spec §6: an opaque serialized blob, deserializable
into the error list); its `value` is embedded already decoded. -/
structure ErrorDetail where
  value : GoogleAdsFailure
  deriving DecidableEq, Repr

/-- The `google.rpc.Status` carried by `partial_failure_error`:
a numeric `code` and a `details` list. -/
structure GoogleRpcStatus where
  code : Int
  details : List ErrorDetail
  deriving DecidableEq, Repr

/-- A batch-mutate response as observed by `get_partial_failures`:
`none` embeds a response object lacking the `partial_failure_error`
attribute (the source reads it with `getattr(response, ..., None)`). -/
structure MutateResponse where
  partialFailureError : Option GoogleRpcStatus
  deriving DecidableEq, Repr

/-- The message text built for one error:
`f'Code: {error.error_code}, Error: {error.message}'`. -/
def failureMessage (e : GoogleAdsError) : String :=
  "Code: " ++ e.error_code ++ ", Error: " ++ e.message

/-- `defaultdict(str)` update `m[k] += msg`: append to the entry in
place when the key exists, insert `"" + msg` at the end otherwise. -/
def dictAppend : List (Int × String) → Int → String → List (Int × String)
  | [], k, msg => [(k, msg)]
  | (k', v) :: rest, k, msg =>
    if k' == k then (k', v ++ msg) :: rest else (k', v) :: dictAppend rest k msg

/-- The `for error in failure_object.errors` inner loop of
`get_partial_failures` (utils.py lines 213–216): take each error's index
from `error.location.field_path_elements[0].index` (`IndexError` when
the location path is empty) and accumulate its message. -/
def addErrors : List (Int × String) → List GoogleAdsError →
    Except PyErr (List (Int × String))
  | acc, [] => .ok acc
  | acc, e :: rest =>
    match e.location.field_path_elements with
    | [] => .error .IndexError
    | fpe :: _ => addErrors (dictAppend acc fpe.index (failureMessage e)) rest

/-- The `for error_detail in error_details` outer loop of
`get_partial_failures` (utils.py lines 205–216). -/
def addDetails : List (Int × String) → List ErrorDetail →
    Except PyErr (List (Int × String))
  | acc, [] => .ok acc
  | acc, d :: rest =>
    match addErrors acc d.value.errors with
    | .error e => .error e
    | .ok acc' => addDetails acc' rest

/-- `GoogleAdsUtils.get_partial_failures`, utils.py lines 179–220.  The
`client` argument of the source is only used to obtain the external
deserializer and is not part of the embedding. -/
def getPartialFailures (response : MutateResponse) :
    Except PyErr (List (Int × String)) :=
  let code : Option Int :=
    match response.partialFailureError with
    | none => none
    | some s => some s.code
  if code == some 0 then .ok []
  else
    let error_details :=
      match response.partialFailureError with
      | none => []
      | some s => s.details
    addDetails [] error_details

/-! ## Concrete fixtures used by witnesses and counterexamples -/

/-- A gtag-type destination configuration. -/
def gtagDest : Destination := ⟨"gtag", false, none⟩

/-- An event carrying every field the gtag payload builder reads. -/
def fullEvent : Event :=
  [("client_id", "c1"), ("user_id", "u1"), ("event_name", "purchase"),
   ("engagement_time_msec", "500"), ("session_id", "s1")]

/-- A payload value used to instantiate payload-indexed statements. -/
def emptyPayload : GA4Payload := ⟨none, none, "", false, none, []⟩

/-! ## C2 — status-code classification of validation responses -/

/-- C2: for every response to a per-event validation request, a status
code ≥ 500 classifies the event invalid with the retriable server-error
kind (`RETRIABLE_GA4_HOOK_ERROR_HTTP_ERROR`); a status strictly between
200 and 500 classifies it invalid with the non-retriable send-failure
kind (`NON_RETRIABLE_ERROR_EVENT_NOT_SENT`); a status of 200 whose body
is not parseable JSON classifies it invalid with the retriable
server-error kind. -/
theorem parseValidateResult_status_classification (event : Event) (r : GA4Response) :
    (r.status_code ≥ 500 →
      parseValidateResult event r =
        .error (.DataOutConnectorValueError .RETRIABLE_GA4_HOOK_ERROR_HTTP_ERROR)) ∧
    (200 < r.status_code → r.status_code < 500 →
      parseValidateResult event r =
        .error (.DataOutConnectorValueError .NON_RETRIABLE_ERROR_EVENT_NOT_SENT)) ∧
    (r.status_code = 200 → r.json = none →
      parseValidateResult event r =
        .error (.DataOutConnectorValueError .RETRIABLE_GA4_HOOK_ERROR_HTTP_ERROR)) := by
  obtain ⟨s, j⟩ := r
  refine ⟨fun h5 => ?_, fun hl hu => ?_, fun h200 hj => ?_⟩
  · unfold parseValidateResult
    rw [if_pos h5]
  · unfold parseValidateResult
    rw [if_neg (by omega), if_pos (by omega)]
  · subst h200 hj
    rfl

/-- Witness for C2 at the concrete statuses 503, 404 and an unparseable
200 body. -/
theorem parseValidateResult_status_classification_witness :
    ((503 : Int) ≥ 500 ∧
      parseValidateResult [] ⟨503, none⟩ =
        .error (.DataOutConnectorValueError .RETRIABLE_GA4_HOOK_ERROR_HTTP_ERROR)) ∧
    ((200 : Int) < 404 ∧ (404 : Int) < 500 ∧
      parseValidateResult [] ⟨404, none⟩ =
        .error (.DataOutConnectorValueError .NON_RETRIABLE_ERROR_EVENT_NOT_SENT)) ∧
    parseValidateResult [] ⟨200, none⟩ =
      .error (.DataOutConnectorValueError .RETRIABLE_GA4_HOOK_ERROR_HTTP_ERROR) :=
  ⟨⟨by decide,
    (parseValidateResult_status_classification [] ⟨503, none⟩).1 (by decide)⟩,
   ⟨by decide, by decide,
    (parseValidateResult_status_classification [] ⟨404, none⟩).2.1 (by decide) (by decide)⟩,
   (parseValidateResult_status_classification [] ⟨200, none⟩).2.2 rfl rfl⟩

/-! ## C4 — transport failures reuse the server-error kind -/

/-- C4 counterexample: a transport failure (connection error, no
response received) is classified with
`RETRIABLE_GA4_HOOK_ERROR_HTTP_ERROR` — the very kind produced for an
HTTP 503 server error — and not with the distinct
`RetriableTransportError` kind of the spec's taxonomy. -/
theorem sendValidateRequest_transport_counterexample :
    sendValidateRequest emptyPayload .ConnectionError =
      .error (.DataOutConnectorValueError .RETRIABLE_GA4_HOOK_ERROR_HTTP_ERROR) ∧
    parseValidateResult [] ⟨503, none⟩ =
      .error (.DataOutConnectorValueError .RETRIABLE_GA4_HOOK_ERROR_HTTP_ERROR) ∧
    ErrorNameIDMap.RETRIABLE_GA4_HOOK_ERROR_HTTP_ERROR ≠
      ErrorNameIDMap.RetriableTransportError :=
  ⟨rfl, rfl, by decide⟩

/-- C4 amended: when the outbound validation POST fails at the transport
layer, the event is classified invalid with the retriable kind
`RETRIABLE_GA4_HOOK_ERROR_HTTP_ERROR` — the same kind used for server
errors, not a distinct transport kind. -/
theorem sendValidateRequest_transport_retriable (p : GA4Payload) :
    sendValidateRequest p .ConnectionError =
      .error (.DataOutConnectorValueError .RETRIABLE_GA4_HOOK_ERROR_HTTP_ERROR) ∧
    ErrorNameIDMap.retriable .RETRIABLE_GA4_HOOK_ERROR_HTTP_ERROR = true :=
  ⟨rfl, rfl⟩

/-! ## C6 — zero partial-failure code means empty map -/

/-- C6: whenever the batch-mutate response carries a partial-failure
status whose code is zero, `get_partial_failures` returns the empty
mapping, regardless of the content of the details list. -/
theorem getPartialFailures_zero_code (r : MutateResponse) (s : GoogleRpcStatus)
    (hr : r.partialFailureError = some s) (hc : s.code = 0) :
    getPartialFailures r = .ok [] := by
  simp [getPartialFailures, hr, hc]

/-- Witness for C6: a zero-code status whose details list is non-empty
(and whose single error even lacks a location path) still yields the
empty mapping. -/
theorem getPartialFailures_zero_code_witness :
    (⟨some ⟨0, [⟨⟨[⟨"c", "m", ⟨[]⟩⟩]⟩⟩]⟩⟩ : MutateResponse).partialFailureError =
      some ⟨0, [⟨⟨[⟨"c", "m", ⟨[]⟩⟩]⟩⟩]⟩ ∧
    (⟨0, [⟨⟨[⟨"c", "m", ⟨[]⟩⟩]⟩⟩]⟩ : GoogleRpcStatus).code = 0 ∧
    getPartialFailures ⟨some ⟨0, [⟨⟨[⟨"c", "m", ⟨[]⟩⟩]⟩⟩]⟩⟩ = .ok [] :=
  ⟨rfl, rfl, getPartialFailures_zero_code _ _ rfl rfl⟩

/-! ## C10 — absent failure structure behaves like success -/

/-- C10: a batch-mutate response lacking the partial-failure attribute
entirely, and one whose status (of any code) carries an empty details
list, both yield the empty mapping without raising. -/
theorem getPartialFailures_missing_structure :
    (∀ r : MutateResponse, r.partialFailureError = none →
      getPartialFailures r = .ok []) ∧
    (∀ (r : MutateResponse) (s : GoogleRpcStatus),
      r.partialFailureError = some s → s.details = [] →
      getPartialFailures r = .ok []) := by
  constructor
  · intro r hr
    simp [getPartialFailures, hr, addDetails]
  · intro r s hr hd
    by_cases h : s.code = 0 <;> simp [getPartialFailures, hr, hd, h, addDetails]

/-- Witness for C10: the attribute-less response and a code-7 status
with no details. -/
theorem getPartialFailures_missing_structure_witness :
    ((⟨none⟩ : MutateResponse).partialFailureError = none ∧
      getPartialFailures ⟨none⟩ = .ok []) ∧
    ((⟨some ⟨7, []⟩⟩ : MutateResponse).partialFailureError = some ⟨7, []⟩ ∧
      (⟨7, []⟩ : GoogleRpcStatus).details = [] ∧
      getPartialFailures ⟨some ⟨7, []⟩⟩ = .ok []) :=
  ⟨⟨rfl, getPartialFailures_missing_structure.1 ⟨none⟩ rfl⟩,
   ⟨rfl, rfl, getPartialFailures_missing_structure.2 ⟨some ⟨7, []⟩⟩ ⟨7, []⟩ rfl rfl⟩⟩

/-! ## C7 — same-index errors accumulate by concatenation -/

/-- C7 counterexample: for a batch of 3 with errors at indices
{1, 1, 2} carrying messages msgA, msgB, msgC, index 1 maps to the
direct concatenation of the two formatted messages
(`Code: …, Error: msgACode: …, Error: msgB`), not to `"msgA; msgB"`. -/
theorem getPartialFailures_separator_counterexample :
    getPartialFailures ⟨some ⟨3,
        [⟨⟨[⟨"c1", "msgA", ⟨[⟨1⟩]⟩⟩, ⟨"c2", "msgB", ⟨[⟨1⟩]⟩⟩,
           ⟨"c3", "msgC", ⟨[⟨2⟩]⟩⟩]⟩⟩]⟩⟩ =
      .ok [(1, "Code: c1, Error: msgACode: c2, Error: msgB"),
           (2, "Code: c3, Error: msgC")] ∧
    "Code: c1, Error: msgACode: c2, Error: msgB" ≠ "msgA; msgB" :=
  ⟨rfl, by decide⟩

/-- C7 amended: multiple errors for the same batch index accumulate into
one message for that index by direct string concatenation of the
formatted per-error messages (`Code: {code}, Error: {message}`), never
overwriting; each error's index is the first element of its location
path; for a batch of 3 with errors at indices {1, 1, 2} the result maps
exactly index 1 to the concatenation of its two formatted messages and
index 2 to its single formatted message, with index 0 absent. -/
theorem getPartialFailures_accumulates (c : Int) (hc : c ≠ 0)
    (ec1 m1 ec2 m2 ec3 m3 : String) :
    getPartialFailures ⟨some ⟨c,
        [⟨⟨[⟨ec1, m1, ⟨[⟨1⟩]⟩⟩, ⟨ec2, m2, ⟨[⟨1⟩]⟩⟩, ⟨ec3, m3, ⟨[⟨2⟩]⟩⟩]⟩⟩]⟩⟩ =
      .ok [(1, failureMessage ⟨ec1, m1, ⟨[⟨1⟩]⟩⟩ ++ failureMessage ⟨ec2, m2, ⟨[⟨1⟩]⟩⟩),
           (2, failureMessage ⟨ec3, m3, ⟨[⟨2⟩]⟩⟩)] := by
  simp [getPartialFailures, hc, addDetails, addErrors, dictAppend]

/-- Witness for C7 (amended) at code 3 and concrete messages. -/
theorem getPartialFailures_accumulates_witness :
    (3 : Int) ≠ 0 ∧
    getPartialFailures ⟨some ⟨3,
        [⟨⟨[⟨"c1", "msgA", ⟨[⟨1⟩]⟩⟩, ⟨"c2", "msgB", ⟨[⟨1⟩]⟩⟩,
           ⟨"c3", "msgC", ⟨[⟨2⟩]⟩⟩]⟩⟩]⟩⟩ =
      .ok [(1, failureMessage ⟨"c1", "msgA", ⟨[⟨1⟩]⟩⟩ ++
               failureMessage ⟨"c2", "msgB", ⟨[⟨1⟩]⟩⟩),
           (2, failureMessage ⟨"c3", "msgC", ⟨[⟨2⟩]⟩⟩)] :=
  ⟨by decide, getPartialFailures_accumulates 3 (by decide) "c1" "msgA" "c2" "msgB" "c3" "msgC"⟩

/-! ## C8 — RunResult merging -/

/-- C8: merging two `RunResult`s sums the two hit counts, concatenates
the error messages with the left operand's first (no message dropped:
the merged length is the sum of the lengths), and ORs the dry-run
flags; the merge is associative, and commutative on both counts. -/
theorem RunResult_add_spec (a b c : RunResult) :
    (a.add b).successful_hits = a.successful_hits + b.successful_hits ∧
    (a.add b).failed_hits = a.failed_hits + b.failed_hits ∧
    (a.add b).error_messages = a.error_messages ++ b.error_messages ∧
    (a.add b).error_messages.length =
      a.error_messages.length + b.error_messages.length ∧
    (a.add b).dry_run = (a.dry_run || b.dry_run) ∧
    (a.add b).add c = a.add (b.add c) ∧
    (a.add b).successful_hits = (b.add a).successful_hits ∧
    (a.add b).failed_hits = (b.add a).failed_hits := by
  refine ⟨rfl, rfl, rfl, ?_, rfl, ?_, ?_, ?_⟩
  · simp [RunResult.add]
  · simp [RunResult.add, RunResult.mk.injEq, Int.add_assoc, Bool.or_assoc]
  · simp [RunResult.add, Int.add_comm]
  · simp [RunResult.add, Int.add_comm]

/-! ## C9 — row-to-event field mapping -/

/-- The inner field loop, started at index `i` with accumulator `acc`,
equals the spec-style left fold over `fields` zipped with the rest of
the row, provided the row is long enough. -/
theorem buildEventDictGo_ok (row : List String) (fields : List String) :
    ∀ (i : Nat) (acc : Dict), i + fields.length ≤ row.length →
    buildEventDictGo row i acc fields =
      .ok ((fields.zip (row.drop i)).foldl (fun d fv => dictSet d fv.1 fv.2) acc) := by
  induction fields with
  | nil => intro i acc _; simp [buildEventDictGo]
  | cons f fs ih =>
    intro i acc h
    have hi : i < row.length := by simp at h; omega
    have hget : row[i]? = some row[i] := List.getElem?_eq_getElem hi
    have hdrop : row.drop i = row[i] :: row.drop (i + 1) :=
      List.drop_eq_getElem_cons hi
    rw [hdrop]
    simp only [buildEventDictGo, rowGet, hget, List.zip_cons_cons, List.foldl_cons]
    exact ih (i + 1) (dictSet acc f row[i]) (by simp at h ⊢; omega)

/-- The full inner loop equals the spec-style mapping. -/
theorem buildEventDict_ok (fields row : List String)
    (h : fields.length ≤ row.length) :
    buildEventDict fields row = .ok (mapRowSpec fields row) := by
  have hgo := buildEventDictGo_ok row fields 0 [] (by omega)
  rw [List.drop_zero] at hgo
  exact hgo

/-- C9 counterexample: on a row whose every mapped value is empty,
`Destination._parse_input_data` retains the row (it drops nothing),
while `DrillMixin._parse_data` drops it — so "a row is dropped iff
every mapped value is falsy" is false for the cited
`_parse_input_data`. -/
theorem parseInputData_keeps_empty_row_counterexample :
    parseInputData GA4_FIELDS [["", "", "", ""]] =
      .ok [[("user_id", ""), ("event_name", ""), ("engagement_time_msec", ""),
            ("session_id", "")]] ∧
    parseData GA4_FIELDS [["", "", "", ""]] = .ok [] :=
  ⟨rfl, rfl⟩

/-- C9 amended: for rows at least as long as the field list, both
mapping steps produce one ordered mapping per retained row assigning
`fields[i]` to `row[i]`, preserving row order; `DrillMixin._parse_data`
drops a row iff every one of its mapped values is falsy/empty, while
`Destination._parse_input_data` performs the same mapping but retains
every row. -/
theorem parseData_field_mapping (fields : List String) (rows : List (List String))
    (h : ∀ row ∈ rows, fields.length ≤ row.length) :
    parseData fields rows = .ok ((rows.map (mapRowSpec fields)).filter dictAny) ∧
    parseInputData fields rows = .ok (rows.map (mapRowSpec fields)) := by
  induction rows with
  | nil => exact ⟨rfl, rfl⟩
  | cons row rest ih =>
    have hrow := h row (List.mem_cons_self row rest)
    obtain ⟨ih1, ih2⟩ := ih (fun r hr => h r (List.mem_cons_of_mem _ hr))
    have hb := buildEventDict_ok fields row hrow
    constructor
    · by_cases hdA : dictAny (mapRowSpec fields row) <;>
        simp [parseData, hb, ih1, List.filter_cons, hdA]
    · simp [parseInputData, hb, ih2]

/-- Witness for C9 (amended): the GA4 field list over one non-empty and
one all-empty row. -/
theorem parseData_field_mapping_witness :
    (∀ row ∈ [["u1", "e1", "5", "s1"], ["", "", "", ""]],
      GA4_FIELDS.length ≤ row.length) ∧
    (parseData GA4_FIELDS [["u1", "e1", "5", "s1"], ["", "", "", ""]] =
      .ok (([["u1", "e1", "5", "s1"], ["", "", "", ""]].map
        (mapRowSpec GA4_FIELDS)).filter dictAny) ∧
    parseInputData GA4_FIELDS [["u1", "e1", "5", "s1"], ["", "", "", ""]] =
      .ok ([["u1", "e1", "5", "s1"], ["", "", "", ""]].map (mapRowSpec GA4_FIELDS))) :=
  ⟨by decide, parseData_field_mapping GA4_FIELDS _ (by decide)⟩

/-! ## C3 — classification of 200-status validation messages -/

/-- The table loop equals `List.find?` of the match predicate. -/
theorem findErrorType_eq_find? (fp d : String) (l : List (String × ErrorNameIDMap)) :
    findErrorType fp d l =
      (l.find? (fun e => fp == e.1 || strIn e.1 d)).map Prod.snd := by
  induction l with
  | nil => rfl
  | cons e rest ih =>
    obtain ⟨n, k⟩ := e
    by_cases hm : (fp == n || strIn n d) = true
    · simp [findErrorType, List.find?, hm]
    · have hb : (fp == n || strIn n d) = false := Bool.eq_false_iff.mpr hm
      simp [findErrorType, List.find?, hb, ih]

/-- Reduction of `_parse_validate_result` on a parseable 200 response
with a non-empty message list whose first message carries a field path
and a description. -/
theorem parseValidateResult_messages (event : Event) (m : ValidationMessage)
    (ms : List ValidationMessage) (fp d : String)
    (hfp : m.fieldPath = some fp) (hd : m.description = some d) :
    parseValidateResult event ⟨200, some ⟨some (m :: ms)⟩⟩ =
      match findErrorType fp d _ERROR_TYPES with
      | some k => .error (.DataOutConnectorValueError k)
      | none => .error (.DataOutConnectorValueError .GA4_HOOK_ERROR_INVALID_VALUES) := by
  simp [parseValidateResult, hfp, hd]

/-- C3: on a parseable 200 response, an empty validation-messages list
classifies the event valid; with a non-empty list only the first
message is examined; its field path (by equality) or description (by
substring containment of the table's field name) is matched against
the `_ERROR_TYPES` table, the first matching entry's kind is emitted,
and if no entry matches the unclassified kind
`GA4_HOOK_ERROR_INVALID_VALUES` is emitted. -/
theorem parseValidateResult_message_classification (event : Event)
    (m : ValidationMessage) (ms : List ValidationMessage) (fp d : String)
    (hfp : m.fieldPath = some fp) (hd : m.description = some d) :
    parseValidateResult event ⟨200, some ⟨some []⟩⟩ = .ok () ∧
    parseValidateResult event ⟨200, some ⟨some (m :: ms)⟩⟩ =
      parseValidateResult event ⟨200, some ⟨some [m]⟩⟩ ∧
    ((∃ e ∈ _ERROR_TYPES, fp = e.1 ∨ strIn e.1 d = true) →
      ∃ e, _ERROR_TYPES.find? (fun e => fp == e.1 || strIn e.1 d) = some e ∧
        parseValidateResult event ⟨200, some ⟨some (m :: ms)⟩⟩ =
          .error (.DataOutConnectorValueError e.2)) ∧
    ((∀ e ∈ _ERROR_TYPES, fp ≠ e.1 ∧ strIn e.1 d = false) →
      parseValidateResult event ⟨200, some ⟨some (m :: ms)⟩⟩ =
        .error (.DataOutConnectorValueError .GA4_HOOK_ERROR_INVALID_VALUES)) := by
  refine ⟨rfl, ?_, ?_, ?_⟩
  · rw [parseValidateResult_messages event m ms fp d hfp hd,
      parseValidateResult_messages event m [] fp d hfp hd]
  · intro hex
    cases he : _ERROR_TYPES.find? (fun e => fp == e.1 || strIn e.1 d) with
    | some e =>
      refine ⟨e, rfl, ?_⟩
      rw [parseValidateResult_messages event m ms fp d hfp hd,
        findErrorType_eq_find?, he]
      rfl
    | none =>
      exfalso
      obtain ⟨e, hel, hm⟩ := hex
      have hno := List.find?_eq_none.mp he e hel
      rcases hm with hm | hm <;> simp [hm] at hno
  · intro hall
    have hnone : _ERROR_TYPES.find? (fun e => fp == e.1 || strIn e.1 d) = none := by
      rw [List.find?_eq_none]
      intro e he
      obtain ⟨h1, h2⟩ := hall e he
      simp [h1, h2]
    rw [parseValidateResult_messages event m ms fp d hfp hd,
      findErrorType_eq_find?, hnone]
    rfl

/-! ## C1 / C5 — the per-event validation loop -/

/-- A transport outcome that cannot make `_parse_validate_result` raise
`KeyError`: any connection error or non-200 response, an unparseable
200 body, or a parseable one whose `validationMessages` key is present
and whose first message (when there is one) carries both `fieldPath`
and `description`. -/
def responseKeySafe (t : TransportResult) : Bool :=
  match t with
  | .ConnectionError => true
  | .response r =>
    if r.status_code = 200 then
      match r.json with
      | none => true
      | some body =>
        match body.validationMessages with
        | none => false
        | some [] => true
        | some (m :: _) => m.fieldPath.isSome && m.description.isSome
    else true

/-- On a key-safe transport outcome, one send-and-parse step either
succeeds or raises exactly a `DataOutConnectorValueError`. -/
theorem sendAndParse_cases (p : GA4Payload) (ev : Event) (t : TransportResult)
    (h : responseKeySafe t = true) :
    sendAndParse p ev t = .ok () ∨
    ∃ k, sendAndParse p ev t = .error (.DataOutConnectorValueError k) := by
  cases t with
  | ConnectionError => exact Or.inr ⟨_, rfl⟩
  | response r =>
    obtain ⟨s, j⟩ := r
    have hred : sendAndParse p ev (.response ⟨s, j⟩) = parseValidateResult ev ⟨s, j⟩ := rfl
    rw [hred]
    by_cases h5 : (500 : Int) ≤ s
    · exact Or.inr ⟨_, by unfold parseValidateResult; rw [if_pos h5]⟩
    · by_cases h200 : s = 200
      · subst h200
        cases j with
        | none => exact Or.inr ⟨_, rfl⟩
        | some body =>
          obtain ⟨bm⟩ := body
          cases bm with
          | none =>
            exact absurd (h : false = true) (by decide)
          | some msgs =>
            cases msgs with
            | nil => exact Or.inl rfl
            | cons m ms =>
              have hsafe : (m.fieldPath.isSome && m.description.isSome) = true := h
              rw [Bool.and_eq_true] at hsafe
              obtain ⟨hfp', hd'⟩ := hsafe
              rw [Option.isSome_iff_exists] at hfp' hd'
              obtain ⟨fp, hfp⟩ := hfp'
              obtain ⟨d, hd⟩ := hd'
              cases hf : findErrorType fp d _ERROR_TYPES with
              | some k =>
                refine Or.inr ⟨k, ?_⟩
                rw [parseValidateResult_messages ev m ms fp d hfp hd, hf]
              | none =>
                refine Or.inr ⟨.GA4_HOOK_ERROR_INVALID_VALUES, ?_⟩
                rw [parseValidateResult_messages ev m ms fp d hfp hd, hf]
      · refine Or.inr ⟨.NON_RETRIABLE_ERROR_EVENT_NOT_SENT, ?_⟩
        unfold parseValidateResult
        rw [if_neg h5, if_pos h200]

/-- Loop invariant of the enumerate loop of
`_get_valid_and_invalid_events`, started at index `i`: when every event
carries the fields its payload needs and every transport outcome is
key-safe, the loop returns two lists whose index sets are disjoint,
each strictly ascending, jointly covering exactly
`[i, i + events.length)`; valid entries carry their own event (whose
classification succeeded), invalid entries carry the error kind their
event's classification raised. -/
theorem getValidAndInvalidEventsGo_spec (dst : Destination)
    (net : Nat → TransportResult) :
    ∀ (events : List Event) (i : Nat),
    (∀ ev ∈ events, ∃ p, buildPayload dst ev = .ok p) →
    (∀ j, responseKeySafe (net j) = true) →
    ∃ v inv, getValidAndInvalidEventsGo dst net i events = .ok (v, inv) ∧
      (∀ j, (j ∈ v.map Prod.fst ∨ j ∈ inv.map Prod.fst) ↔
        (i ≤ j ∧ j < i + events.length)) ∧
      (∀ j, j ∈ v.map Prod.fst → j ∉ inv.map Prod.fst) ∧
      List.Sorted (· < ·) (v.map Prod.fst) ∧
      List.Sorted (· < ·) (inv.map Prod.fst) ∧
      (∀ j e, (j, e) ∈ v → events[j - i]? = some e ∧
        ∃ p, buildPayload dst e = .ok p ∧ sendAndParse p e (net j) = .ok ()) ∧
      (∀ j k, (j, k) ∈ inv → ∃ e p, events[j - i]? = some e ∧
        buildPayload dst e = .ok p ∧
        sendAndParse p e (net j) = .error (.DataOutConnectorValueError k)) := by
  intro events
  induction events with
  | nil =>
    intro i _ _
    refine ⟨[], [], rfl, ?_, by simp, by simp, by simp, by simp, by simp⟩
    intro j
    simp only [List.map_nil, List.not_mem_nil, or_self, false_iff, List.length_nil]
    omega
  | cons ev rest ih =>
    intro i H1 H2
    obtain ⟨p, hp⟩ := H1 ev (List.mem_cons_self ev rest)
    obtain ⟨v, inv, hgo, hmem, hdisj, hsv, hsi, hv, hinv⟩ :=
      ih (i + 1) (fun e he => H1 e (List.mem_cons_of_mem _ he)) H2
    have hvub : ∀ j, j ∈ v.map Prod.fst → i + 1 ≤ j ∧ j < i + 1 + rest.length :=
      fun j hj => (hmem j).mp (Or.inl hj)
    have hiub : ∀ j, j ∈ inv.map Prod.fst → i + 1 ≤ j ∧ j < i + 1 + rest.length :=
      fun j hj => (hmem j).mp (Or.inr hj)
    rcases sendAndParse_cases p ev (net i) (H2 i) with hok | ⟨k, herr⟩
    · refine ⟨(i, ev) :: v, inv, ?_, ?_, ?_, ?_, hsi, ?_, ?_⟩
      · simp [getValidAndInvalidEventsGo, hp, hok, hgo]
      · intro j
        simp only [List.map_cons, List.mem_cons, List.length_cons]
        constructor
        · rintro ((rfl | hj) | hj)
          · omega
          · have := hvub j hj; omega
          · have := hiub j hj; omega
        · rintro ⟨hij, hlt⟩
          by_cases hji : j = i
          · exact Or.inl (Or.inl hji)
          · rcases (hmem j).mpr ⟨by omega, by omega⟩ with h' | h'
            · exact Or.inl (Or.inr h')
            · exact Or.inr h'
      · intro j hj
        simp only [List.map_cons, List.mem_cons] at hj
        rcases hj with rfl | hj
        · intro hcon; have := hiub j hcon; omega
        · exact hdisj j hj
      · rw [List.map_cons, List.sorted_cons]
        exact ⟨fun b hb => by have := hvub b hb; omega, hsv⟩
      · intro j e hj
        rcases List.mem_cons.mp hj with heq | hj'
        · injection heq with h1 h2
          subst h1; subst h2
          exact ⟨by simp, p, hp, hok⟩
        · have hj1 : i + 1 ≤ j := (hvub j (List.mem_map_of_mem Prod.fst hj')).1
          obtain ⟨hrest, hpe⟩ := hv j e hj'
          refine ⟨?_, hpe⟩
          have hji : j - i = (j - (i + 1)) + 1 := by omega
          rw [hji, List.getElem?_cons_succ]
          exact hrest
      · intro j k' hj
        obtain ⟨e, p', hrest, hpe, hse⟩ := hinv j k' hj
        have hj1 : i + 1 ≤ j := (hiub j (List.mem_map_of_mem Prod.fst hj)).1
        refine ⟨e, p', ?_, hpe, hse⟩
        have hji : j - i = (j - (i + 1)) + 1 := by omega
        rw [hji, List.getElem?_cons_succ]
        exact hrest
    · refine ⟨v, (i, k) :: inv, ?_, ?_, ?_, hsv, ?_, ?_, ?_⟩
      · simp [getValidAndInvalidEventsGo, hp, herr, hgo]
      · intro j
        simp only [List.map_cons, List.mem_cons, List.length_cons]
        constructor
        · rintro (hj | (rfl | hj))
          · have := hvub j hj; omega
          · omega
          · have := hiub j hj; omega
        · rintro ⟨hij, hlt⟩
          by_cases hji : j = i
          · exact Or.inr (Or.inl hji)
          · rcases (hmem j).mpr ⟨by omega, by omega⟩ with h' | h'
            · exact Or.inl h'
            · exact Or.inr (Or.inr h')
      · intro j hj hcon
        simp only [List.map_cons, List.mem_cons] at hcon
        rcases hcon with rfl | hcon
        · have := hvub j hj; omega
        · exact hdisj j hj hcon
      · rw [List.map_cons, List.sorted_cons]
        exact ⟨fun b hb => by have := hiub b hb; omega, hsi⟩
      · intro j e hj
        have hj1 : i + 1 ≤ j := (hvub j (List.mem_map_of_mem Prod.fst hj)).1
        obtain ⟨hrest, hpe⟩ := hv j e hj
        refine ⟨?_, hpe⟩
        have hji : j - i = (j - (i + 1)) + 1 := by omega
        rw [hji, List.getElem?_cons_succ]
        exact hrest
      · intro j k' hj
        rcases List.mem_cons.mp hj with heq | hj'
        · injection heq with h1 h2
          subst h1; subst h2
          exact ⟨ev, p, by simp, hp, herr⟩
        · obtain ⟨e, p', hrest, hpe, hse⟩ := hinv j k' hj'
          have hj1 : i + 1 ≤ j := (hiub j (List.mem_map_of_mem Prod.fst hj')).1
          refine ⟨e, p', ?_, hpe, hse⟩
          have hji : j - i = (j - (i + 1)) + 1 := by omega
          rw [hji, List.getElem?_cons_succ]
          exact hrest

/-- C1 counterexample: a batch of one event carrying every field the
payload builder reads still yields no valid/invalid partition — a
200-status parseable response whose body lacks the
`validationMessages` key raises an uncaught `KeyError`, so the function
returns no lists at all. -/
theorem getValidAndInvalidEvents_partition_counterexample :
    getValidAndInvalidEvents gtagDest [fullEvent]
      (fun _ => .response ⟨200, some ⟨none⟩⟩) = .error .KeyError := rfl

/-- C1 amended: when every event carries the fields the payload builder
reads AND every response is key-safe (its parseable 200 body has the
`validationMessages` key and an examined first message has `fieldPath`
and `description`), `_get_valid_and_invalid_events` returns a
valid-events list of (index, event) pairs and an invalid list of
(index, errorKind) pairs whose index sets are disjoint, each in
ascending order, with union exactly {0, …, N−1}, and each valid pair
carries the input event at its index. -/
theorem getValidAndInvalidEvents_partition (dst : Destination)
    (events : List Event) (net : Nat → TransportResult)
    (H1 : ∀ ev ∈ events, ∃ p, buildPayload dst ev = .ok p)
    (H2 : ∀ j, responseKeySafe (net j) = true) :
    ∃ v inv, getValidAndInvalidEvents dst events net = .ok (v, inv) ∧
      (∀ j, (j ∈ v.map Prod.fst ∨ j ∈ inv.map Prod.fst) ↔ j < events.length) ∧
      (∀ j, ¬ (j ∈ v.map Prod.fst ∧ j ∈ inv.map Prod.fst)) ∧
      List.Sorted (· < ·) (v.map Prod.fst) ∧
      List.Sorted (· < ·) (inv.map Prod.fst) ∧
      (∀ j e, (j, e) ∈ v → events[j]? = some e) := by
  obtain ⟨v, inv, hgo, hmem, hdisj, hsv, hsi, hv, _⟩ :=
    getValidAndInvalidEventsGo_spec dst net events 0 H1 H2
  refine ⟨v, inv, hgo, ?_, ?_, hsv, hsi, ?_⟩
  · intro j
    rw [hmem j]
    omega
  · rintro j ⟨h1, h2⟩
    exact hdisj j h1 h2
  · intro j e hj
    simpa using (hv j e hj).1

/-- Witness for C1 (amended): one full event against a valid-response
endpoint. -/
theorem getValidAndInvalidEvents_partition_witness :
    (∀ ev ∈ [fullEvent], ∃ p, buildPayload gtagDest ev = .ok p) ∧
    (∀ j, responseKeySafe
      ((fun _ : Nat => TransportResult.response ⟨200, some ⟨some []⟩⟩) j) = true) ∧
    ∃ v inv,
      getValidAndInvalidEvents gtagDest [fullEvent]
        (fun _ : Nat => .response ⟨200, some ⟨some []⟩⟩) = .ok (v, inv) ∧
      (∀ j, (j ∈ v.map Prod.fst ∨ j ∈ inv.map Prod.fst) ↔
        j < ([fullEvent] : List Event).length) ∧
      (∀ j, ¬ (j ∈ v.map Prod.fst ∧ j ∈ inv.map Prod.fst)) ∧
      List.Sorted (· < ·) (v.map Prod.fst) ∧
      List.Sorted (· < ·) (inv.map Prod.fst) ∧
      (∀ j e, (j, e) ∈ v → ([fullEvent] : List Event)[j]? = some e) := by
  have H1 : ∀ ev ∈ [fullEvent], ∃ p, buildPayload gtagDest ev = .ok p := by
    intro ev hev
    rw [List.mem_singleton] at hev
    subst hev
    exact ⟨_, rfl⟩
  exact ⟨H1, fun j => rfl,
    getValidAndInvalidEvents_partition gtagDest [fullEvent] _ H1 (fun j => rfl)⟩

/-- C5 counterexample: a batch whose first event lacks the `user_id`
field aborts with an uncaught `KeyError` — the malformed row is not
captured as an Invalid outcome and the remaining (well-formed) event is
never processed. -/
theorem getValidAndInvalidEvents_abort_counterexample :
    getValidAndInvalidEvents gtagDest [[("client_id", "c1")], fullEvent]
      (fun _ => .response ⟨200, some ⟨some []⟩⟩) = .error .KeyError := rfl

/-- A per-index transport assignment used by the C5 witness: a valid
response for index 0 and a 503 for every other index. -/
def mixedNet : Nat → TransportResult :=
  fun i => if i = 0 then .response ⟨200, some ⟨some []⟩⟩ else .response ⟨503, none⟩

/-- C5 amended: when every event carries the fields the payload builder
reads and every response is key-safe, no exception escapes
`_get_valid_and_invalid_events` — it returns its two lists — and the
per-event failures raised as `DataOutConnectorValueError` are captured
as data: the invalid list holds exactly the (index, kind) pairs whose
event's classification raised that kind.  (Without the key-safety
hypotheses this fails: an event missing an expected field, or a 200
body lacking `validationMessages`, raises an uncaught `KeyError` that
aborts the whole batch.) -/
theorem getValidAndInvalidEvents_captures_failures (dst : Destination)
    (events : List Event) (net : Nat → TransportResult)
    (H1 : ∀ ev ∈ events, ∃ p, buildPayload dst ev = .ok p)
    (H2 : ∀ j, responseKeySafe (net j) = true) :
    ∃ v inv, getValidAndInvalidEvents dst events net = .ok (v, inv) ∧
      (∀ j k, (j, k) ∈ inv → ∃ e p, events[j]? = some e ∧
        buildPayload dst e = .ok p ∧
        sendAndParse p e (net j) = .error (.DataOutConnectorValueError k)) ∧
      (∀ j e p k, events[j]? = some e → buildPayload dst e = .ok p →
        sendAndParse p e (net j) = .error (.DataOutConnectorValueError k) →
        (j, k) ∈ inv) := by
  obtain ⟨v, inv, hgo, hmem, _, _, _, hv, hinv⟩ :=
    getValidAndInvalidEventsGo_spec dst net events 0 H1 H2
  refine ⟨v, inv, hgo, ?_, ?_⟩
  · intro j k hj
    obtain ⟨e, p, h1, h2, h3⟩ := hinv j k hj
    exact ⟨e, p, by simpa using h1, h2, h3⟩
  · intro j e p k hje hbp hse
    have hlt : j < events.length := by
      by_contra hge
      rw [List.getElem?_eq_none (by omega)] at hje
      exact Option.noConfusion hje
    rcases (hmem j).mpr ⟨Nat.zero_le j, by omega⟩ with hjv | hjinv
    · exfalso
      obtain ⟨⟨j0, e'⟩, hpair, heq⟩ := List.mem_map.mp hjv
      have hj0 : j0 = j := heq
      subst hj0
      obtain ⟨hje', p', hbp', hok⟩ := hv j0 e' hpair
      have he' : e' = e := by
        simp only [Nat.sub_zero] at hje'
        rw [hje] at hje'
        exact (Option.some.injEq .. ▸ hje').symm
      subst he'
      have hp' : p' = p := by
        rw [hbp] at hbp'
        injection hbp' with hq
        exact hq.symm
      subst hp'
      rw [hse] at hok
      exact Except.noConfusion hok
    · obtain ⟨⟨j0, k'⟩, hpair, heq⟩ := List.mem_map.mp hjinv
      have hj0 : j0 = j := heq
      subst hj0
      obtain ⟨e2, p2, h1, h2, h3⟩ := hinv j0 k' hpair
      have he2 : e2 = e := by
        simp only [Nat.sub_zero] at h1
        rw [hje] at h1
        exact (Option.some.injEq .. ▸ h1).symm
      subst he2
      have hp2 : p2 = p := by
        rw [hbp] at h2
        injection h2 with hq
        exact hq.symm
      subst hp2
      have hk : k' = k := by
        have h4 := hse.symm.trans h3
        injection h4 with h5
        injection h5 with h6
        exact h6.symm
      subst hk
      exact hpair

/-- Witness for C5 (amended): two full events, the second receiving a
503 — the failure is captured at index 1. -/
theorem getValidAndInvalidEvents_captures_failures_witness :
    (∀ ev ∈ [fullEvent, fullEvent], ∃ p, buildPayload gtagDest ev = .ok p) ∧
    (∀ j, responseKeySafe (mixedNet j) = true) ∧
    ∃ v inv,
      getValidAndInvalidEvents gtagDest [fullEvent, fullEvent] mixedNet =
        .ok (v, inv) ∧
      (∀ j k, (j, k) ∈ inv →
        ∃ e p, ([fullEvent, fullEvent] : List Event)[j]? = some e ∧
          buildPayload gtagDest e = .ok p ∧
          sendAndParse p e (mixedNet j) = .error (.DataOutConnectorValueError k)) ∧
      (∀ j e p k, ([fullEvent, fullEvent] : List Event)[j]? = some e →
        buildPayload gtagDest e = .ok p →
        sendAndParse p e (mixedNet j) = .error (.DataOutConnectorValueError k) →
        (j, k) ∈ inv) := by
  have H1 : ∀ ev ∈ [fullEvent, fullEvent], ∃ p, buildPayload gtagDest ev = .ok p := by
    intro ev hev
    rw [List.mem_cons, List.mem_singleton] at hev
    rcases hev with rfl | rfl <;> exact ⟨_, rfl⟩
  have H2 : ∀ j, responseKeySafe (mixedNet j) = true := by
    intro j
    cases j <;> rfl
  exact ⟨H1, H2,
    getValidAndInvalidEvents_captures_failures gtagDest [fullEvent, fullEvent]
      mixedNet H1 H2⟩

/-- Witness for C3: a message whose field path names `client_id`
(matched by the table) instantiates the matching branch; the stated
hypotheses and the empty-list branch are checked at the same input. -/
theorem parseValidateResult_message_classification_witness :
    (⟨some "client_id", some "bad value"⟩ : ValidationMessage).fieldPath =
      some "client_id" ∧
    (⟨some "client_id", some "bad value"⟩ : ValidationMessage).description =
      some "bad value" ∧
    (parseValidateResult [] ⟨200, some ⟨some []⟩⟩ = .ok () ∧
      parseValidateResult []
          ⟨200, some ⟨some [⟨some "client_id", some "bad value"⟩,
            ⟨some "x", some "y"⟩]⟩⟩ =
        parseValidateResult [] ⟨200, some ⟨some [⟨some "client_id", some "bad value"⟩]⟩⟩ ∧
      ((∃ e ∈ _ERROR_TYPES, "client_id" = e.1 ∨ strIn e.1 "bad value" = true) →
        ∃ e, _ERROR_TYPES.find?
            (fun e => "client_id" == e.1 || strIn e.1 "bad value") = some e ∧
          parseValidateResult []
              ⟨200, some ⟨some [⟨some "client_id", some "bad value"⟩,
                ⟨some "x", some "y"⟩]⟩⟩ =
            .error (.DataOutConnectorValueError e.2)) ∧
      ((∀ e ∈ _ERROR_TYPES, "client_id" ≠ e.1 ∧ strIn e.1 "bad value" = false) →
        parseValidateResult []
            ⟨200, some ⟨some [⟨some "client_id", some "bad value"⟩,
              ⟨some "x", some "y"⟩]⟩⟩ =
          .error (.DataOutConnectorValueError .GA4_HOOK_ERROR_INVALID_VALUES))) :=
  ⟨rfl, rfl,
   parseValidateResult_message_classification [] ⟨some "client_id", some "bad value"⟩
     [⟨some "x", some "y"⟩] "client_id" "bad value" rfl rfl⟩
